import Mathlib

/-!
# Verification of the `wisfind` notification-message pipeline

A shallow embedding of the `wisfind` sources (`src/wisfind/definitions.py`,
`src/wisfind/main.py`, `src/wisfind/parser.py`) in Lean 4, together with
theorems settling the specification claims about validation, the retry loop,
the event loop, and the constraint engine.

Python runtime behaviour is embedded explicitly: exceptions become an
error type `PyErr`, fallible code returns `Except PyErr _`, and the
pydantic three-way field state (absent / explicit null / value) is the
inductive `JField`.
-/

namespace Wisfind

/-- Kinds of Python exceptions the embedded code can raise.
`valueError` also stands for pydantic `ValidationError` (pydantic converts a
`ValueError` raised in a validator into a `ValidationError`). -/
inductive PyErr where
  | valueError
  | attributeError
  | keyError
  | typeError
  deriving DecidableEq, Repr

/-- State of a JSON key in a document: never sent, sent as `null`, or sent
with a value.  Mirrors how pydantic distinguishes a missing key (the field
default is used and the field is not in `model_fields_set`) from an explicit
`null`. -/
inductive JField (α : Type) where
  | absent
  | null
  | val (a : α)
  deriving DecidableEq, Repr

/-- State of a parsed optional model field whose default is the `NOTSET`
sentinel (or `None`): `notset` means the key was never sent (field not in
`model_fields_set`), `null` means it was sent as an explicit `null`,
`value a` means it was sent with value `a`. -/
inductive Presence (α : Type) where
  | notset
  | null
  | value (a : α)
  deriving DecidableEq, Repr

/-- A field is present when it was sent at all — an explicit `null` counts
as present (`x is NOTSET` is false for `None` in the Python code). -/
def Presence.isPresent : Presence α → Bool
  | .notset => false
  | _ => true

/-! ## `datetime` values and `parse_wnm_datetime`

A Python `datetime` is embedded as an abstract instant plus its `tzinfo`
attribute.  `tzinfo = none` models a naive datetime; `tzinfo = some k`
models `timezone(timedelta(minutes=k))`, so `some 0` is `timezone.utc`
(Python compares fixed-offset timezones by offset, and
`datetime.fromisoformat` on a `+00:00`/`Z` suffix yields `timezone.utc`). -/

structure PyDatetime where
  /-- Abstract instant (the date/time fields of the Python `datetime`). -/
  stamp : Nat
  /-- The `tzinfo` attribute: `none` = naive, `some k` = fixed offset of
  `k` minutes. -/
  tzinfo : Option Int
  deriving DecidableEq, Repr

/-- The UTC offset: `timezone.utc`. -/
def utcOffset : Int := 0

/-- The surface form handed to `parse_wnm_datetime`: the outcome of
`datetime.fromisoformat` on the input string.  `none` models a string that
`fromisoformat` rejects; `some dt` models a string parsing to `dt`. -/
abbrev TsSurface : Type := Option PyDatetime

/-- Embedding of `definitions.parse_wnm_datetime` (definitions.py:35-62),
line by line:

* `dt = datetime.fromisoformat(_obj)` failing raises `ValueError`;
* `if dt.tzinfo is None: dt.tzinfo = timezone.utc` — Python `datetime`
  objects are immutable, `tzinfo` is a read-only attribute, so this
  assignment raises `AttributeError`;
* `elif dt.tzinfo != timezone.utc:` — the `raise ValueError(f"... {dt.toisoformat()}")`
  evaluates the f-string first, and `datetime` has no method `toisoformat`
  (the method is `isoformat`), so this path raises `AttributeError` as well;
* otherwise the datetime is returned unchanged. -/
def parse_wnm_datetime : TsSurface → Except PyErr PyDatetime
  | none => .error .valueError
  | some dt =>
    match dt.tzinfo with
    | none => .error .attributeError
    | some tz =>
      if tz = utcOffset then .ok dt
      else .error .attributeError

/-! ## Cross-field validators of the message model -/

/-- Embedding of `WNMProperties.check_temporal_description`
(definitions.py:213-229).  The Python code tests `is NOTSET`; an explicit
`null` (Python `None`) is not `NOTSET`. -/
def check_temporal_description (dt sdt edt : Presence PyDatetime) :
    Except PyErr Unit :=
  if dt = .notset then
    if sdt = .notset ∧ edt = .notset then
      .error .valueError   -- "Must specify a temporal description!"
    else if sdt = .notset ∨ edt = .notset then
      .error .valueError   -- "Must specify both start_datetime AND end_datetime"
    else .ok ()
  else
    if ¬(sdt = .notset ∧ edt = .notset) then
      .error .valueError   -- "Must choose a temporal description!"
    else .ok ()

/-- Embedding of `WNM.check_conforms_to_or_version` (definitions.py:289-300).
`conformsTo` is `none` when the field is the `NOTSET` sentinel, `some xs`
when a list was supplied; `version` likewise (`null` is not possible for
either: both fields reject `null` in shape validation before this model
validator runs). -/
def check_conforms_to_or_version (conformsTo : Option (List String))
    (version : Option String) : Except PyErr Unit :=
  if conformsTo = none ∧ version = none then
    .error .valueError   -- "Must specify at least one of: 'version', 'conformsTo'!"
  else if conformsTo ≠ none ∧ version ≠ none then
    .error .valueError   -- "Cannot specify both: 'version' and 'conformsTo'!"
  else .ok ()

/-- `wnm_content_max_bytes` (definitions.py:73). -/
def wnm_content_max_bytes : Int := 4096

/-- `wnm_link_required_rel` (definitions.py:75). -/
def wnm_link_required_rel : List String := ["canonical", "update", "deletion"]

/-- The `le=wnm_content_max_bytes` constraint on `WNMContent.size`
(definitions.py:129). -/
def content_size_ok (size : Int) : Bool := size ≤ wnm_content_max_bytes

/-- Embedding of `WNM.check_links_rel` (definitions.py:302-311) applied to
the list of `rel` values of the links. -/
def check_links_rel (rels : List String) : Except PyErr Unit :=
  if rels.any (fun r => wnm_link_required_rel.contains r) then .ok ()
  else .error .valueError

/-! ## Connection manager: the retry loop of `iter_mqtt`

`iter_mqtt` (main.py:53-90) initialises `attempts = info["reconnect_attempts"]`
and loops: on an `MqttError`, `if not attempts: raise ConnectionError`
(Python truthiness: only `attempts == 0` raises), else `attempts -= 1`,
then one backoff sleep, then retry.  We embed a run of this loop against a
connection that fails `failures` consecutive times and then succeeds. -/

/-- Outcome of a run of the `iter_mqtt` retry loop: either messages are
delivered after `waits` backoff sleeps, or a `ConnectionError` is raised
after `waits` backoff sleeps. -/
inductive RetryOutcome where
  | delivered (waits : Nat)
  | connError (waits : Nat)
  deriving DecidableEq, Repr

/-- One run of the `while True` loop of `iter_mqtt` (main.py:76-90) with the
remaining attempt counter `attempts` (a Python int, possibly negative),
against a connection that raises `MqttError` on each of the next `failures`
connection attempts and succeeds after that. -/
def iter_mqtt_retry (attempts : Int) : Nat → RetryOutcome
  | 0 => .delivered 0
  | failures + 1 =>
    if attempts = 0 then .connError 0
    else
      match iter_mqtt_retry (attempts - 1) failures with
      | .delivered w => .delivered (w + 1)
      | .connError w => .connError (w + 1)

/-- Embedding of the `MqttConnectionInfo` TypedDict (main.py:41-50).
The reconnect delay is a Python float; only its identity matters here,
so it is carried as an opaque integer number of milliseconds. -/
structure MqttConnectionInfo where
  endpoint : String
  topics : List String
  user : String
  password : String
  transport : String
  reconnect_delay : Int
  reconnect_attempts : Int
  deriving DecidableEq, Repr

/-- The subscribe requests `iter_mqtt` issues per established session
(main.py:78-82): inside `async with client:` there is exactly one
`client.subscribe` call, with the hardcoded topic filter
`"cache/a/wis2/#"` and `qos=1`; `info["topics"]` is never read. -/
def session_subscribe_calls (_info : MqttConnectionInfo) : List (String × Nat) :=
  [("cache/a/wis2/#", 1)]

/-! ## The message model: documents, validation, serialization

A JSON document for a WNM is mirrored field by field, with every key a
`JField` (absent / null / value).  Validation (`parseWNM` etc.) embeds
constructing the pydantic models of definitions.py under
`ConfigDict(strict=True)`; serialization (`serializeWNM` etc.) embeds the
custom `WNMModel.serialize` model serializer (definitions.py:85-88), which
emits exactly the keys in `model_fields_set` — for a message built from a
document these are exactly the keys present in the document. -/

/-- A URI surface value, pre-split into scheme and remainder; stands for
the string form of a pydantic `HttpUrl | FtpUrl`.  A URL held by a
validated message is already in pydantic's normalised form, on which
serialization followed by re-parsing is the identity. -/
structure UrlSurface where
  scheme : String
  rest : String
  deriving DecidableEq, Repr

/-- Schemes accepted by `WNMLink.href` (`HttpUrl | FtpUrl`,
definitions.py:147). -/
def allowed_schemes : List String := ["http", "https", "ftp", "sftp"]

/-- `WNMIntegrityMethod` (definitions.py:69). -/
def wnm_integrity_methods : List String :=
  ["sha256", "sha384", "sha512", "sha3-256", "sha3-384", "sha3-512"]

/-- `WNMContentEncoding` (definitions.py:71). -/
def wnm_content_encodings : List String := ["utf-8", "base64", "gzip"]

/-- Parsed `WNMIntegrity` model (definitions.py:95-108); both fields are
required, so they are always in `model_fields_set`. -/
structure WNMIntegrity where
  method : String
  value : String
  deriving DecidableEq, Repr

/-- Document surface of a `WNMIntegrity`. -/
structure IntegrityDoc where
  method : JField String
  value : JField String
  deriving DecidableEq, Repr

/-- Parsed `WNMContent` model (definitions.py:111-129); all fields
required. -/
structure WNMContent where
  encoding : String
  value : String
  size : Int
  deriving DecidableEq, Repr

/-- Document surface of a `WNMContent`. -/
structure ContentDoc where
  encoding : JField String
  value : JField String
  size : JField Int
  deriving DecidableEq, Repr

/-- The `security` dict of a link (`dict | None`): an arbitrary JSON
mapping, passed through unvalidated. -/
abbrev SecDict := List (String × String)

/-- Parsed `WNMLink` model (definitions.py:132-155).  The optional fields
default to `None`; `Presence.notset` is the defaulted state (key omitted,
not in `model_fields_set`), `Presence.null` an explicit `null`. -/
structure WNMLink where
  href : UrlSurface
  rel : String
  type : Presence String
  length : Presence Int
  security : Presence SecDict
  deriving DecidableEq, Repr

/-- Document surface of a `WNMLink`. -/
structure LinkDoc where
  href : JField UrlSurface
  rel : JField String
  type : JField String
  length : JField Int
  security : JField SecDict
  deriving DecidableEq, Repr

/-- Parsed `WNMProperties` model (definitions.py:158-229).  `cache` has a
plain default `False` and rejects `null`, so its state is `none` (key
omitted, value defaults to `False`) or `some b`. -/
structure WNMProperties where
  pubtime : PyDatetime
  data_id : String
  metadata_id : Presence String
  producer : Presence String
  datetime : Presence PyDatetime
  start_datetime : Presence PyDatetime
  end_datetime : Presence PyDatetime
  cache : Option Bool
  integrity : Presence WNMIntegrity
  content : Presence WNMContent
  deriving DecidableEq, Repr

/-- Document surface of a `WNMProperties`. -/
structure PropertiesDoc where
  pubtime : JField TsSurface
  data_id : JField String
  metadata_id : JField String
  producer : JField String
  datetime : JField TsSurface
  start_datetime : JField TsSurface
  end_datetime : JField TsSurface
  cache : JField Bool
  integrity : JField IntegrityDoc
  content : JField ContentDoc
  deriving DecidableEq, Repr

/-- Parsed `WNM` model (definitions.py:232-311).  `type` always holds
`"Feature"` after validation; `conformsTo`/`version` are `none` when left
at the `NOTSET` sentinel; `geometry` is required but nullable
(`GeoJSON | None` with no default): `none` is an explicit `null`,
`some ()` a GeoJSON object (the `GeoJSON` model has no fields, so any
object validates to the empty model). -/
structure WNM where
  id : String
  type : String
  conformsTo : Option (List String)
  version : Option String
  geometry : Option Unit
  properties : WNMProperties
  links : List WNMLink
  deriving DecidableEq, Repr

/-- Document surface of a `WNM`: the JSON object handed to `WNM(**data)`. -/
structure WNMDoc where
  id : JField String
  type : JField String
  conformsTo : JField (List String)
  version : JField String
  geometry : JField Unit
  properties : JField PropertiesDoc
  links : JField (List LinkDoc)
  deriving DecidableEq, Repr

/-! ### Field combinators

pydantic treatment of a key, by field kind:
* required, not nullable: missing key or `null` is a validation error;
* required, nullable (`geometry`): missing key is an error, `null` is a
  value;
* optional, nullable (`X | None` with a default): missing key keeps the
  default and stays out of `model_fields_set`; `null` is the value `None`;
* optional, not nullable (`cache`, `conformsTo`, `version`): missing key
  keeps the default; `null` is an error. -/

/-- Parse a required, non-nullable field. -/
def parseReq (f : α → Except PyErr β) : JField α → Except PyErr β
  | .absent => .error .valueError
  | .null => .error .valueError
  | .val a => f a

/-- Parse a required, nullable field. -/
def parseReqOrNull (f : α → Except PyErr β) : JField α → Except PyErr (Option β)
  | .absent => .error .valueError
  | .null => .ok none
  | .val a =>
    match f a with
    | .error e => .error e
    | .ok b => .ok (some b)

/-- Parse an optional, nullable field. -/
def parseOpt (f : α → Except PyErr β) : JField α → Except PyErr (Presence β)
  | .absent => .ok .notset
  | .null => .ok .null
  | .val a =>
    match f a with
    | .error e => .error e
    | .ok b => .ok (.value b)

/-- Parse an optional, non-nullable field. -/
def parseOptNoNull (f : α → Except PyErr β) : JField α → Except PyErr (Option β)
  | .absent => .ok none
  | .null => .error .valueError
  | .val a =>
    match f a with
    | .error e => .error e
    | .ok b => .ok (some b)

/-- Emit an optional nullable field from its parsed state (the
`model_fields_set` serializer: omit the defaulted state). -/
def emitOpt (e : β → α) : Presence β → JField α
  | .notset => .absent
  | .null => .null
  | .value b => .val (e b)

/-- Emit an optional non-nullable field. -/
def emitOptNoNull (e : β → α) : Option β → JField α
  | none => .absent
  | some b => .val (e b)

/-- Emit a required nullable field (always in `model_fields_set`). -/
def emitReqOrNull (e : β → α) : Option β → JField α
  | none => .null
  | some b => .val (e b)

/-! ### Leaf parsers -/

/-- Validate a string against a `Literal[...]`/enum type. -/
def parseEnum (allowed : List String) (s : String) : Except PyErr String :=
  if allowed.contains s then .ok s else .error .valueError

/-- Validate a `HttpUrl | FtpUrl` (Req 11.D: links SHALL be HTTP, HTTPS,
FTP or SFTP). -/
def parseUrl (u : UrlSurface) : Except PyErr UrlSurface :=
  if allowed_schemes.contains u.scheme then .ok u else .error .valueError

/-- Serialization of an aware datetime: pydantic emits the ISO form of the
datetime, and `datetime.fromisoformat` maps that form back to the same
datetime, so on the surface type the serialized form is `some d`. -/
def serializeDt (d : PyDatetime) : TsSurface := some d

/-! ### Model parsers -/

/-- Construct a `WNMIntegrity` from its document. -/
def parseIntegrity (d : IntegrityDoc) : Except PyErr WNMIntegrity := do
  let method ← parseReq (parseEnum wnm_integrity_methods) d.method
  let value ← parseReq Except.ok d.value
  .ok ⟨method, value⟩

/-- Construct a `WNMContent` from its document.  The `size` field carries
`le=wnm_content_max_bytes` (definitions.py:129); the `maximum_length`
keyword on `value` is not a recognised pydantic `Field` argument and
enforces nothing. -/
def parseContent (d : ContentDoc) : Except PyErr WNMContent := do
  let encoding ← parseReq (parseEnum wnm_content_encodings) d.encoding
  let value ← parseReq Except.ok d.value
  let size ← parseReq
    (fun n => if content_size_ok n then Except.ok n else .error .valueError) d.size
  .ok ⟨encoding, value, size⟩

/-- Construct a `WNMLink` from its document. -/
def parseLink (d : LinkDoc) : Except PyErr WNMLink := do
  let href ← parseReq parseUrl d.href
  let rel ← parseReq Except.ok d.rel
  let ty ← parseOpt Except.ok d.type
  let length ← parseOpt Except.ok d.length
  let security ← parseOpt Except.ok d.security
  .ok ⟨href, rel, ty, length, security⟩

/-- Validate each element of a list in order, failing on the first
failure (pydantic list-element validation). -/
def mapE (f : α → Except PyErr β) : List α → Except PyErr (List β)
  | [] => .ok []
  | x :: xs =>
    match f x with
    | .error e => .error e
    | .ok y =>
      match mapE f xs with
      | .error e => .error e
      | .ok ys => .ok (y :: ys)

/-- Validate the `links` field: each element as a `WNMLink`, and
`min_length=1` (definitions.py:287). -/
def parseLinks (docs : List LinkDoc) : Except PyErr (List WNMLink) := do
  let links ← mapE parseLink docs
  if links.length = 0 then .error .valueError else .ok links

/-- Construct a `WNMProperties` from its document: per-field shape checks
in declaration order, then the `check_temporal_description` model
validator. -/
def parseProps (d : PropertiesDoc) : Except PyErr WNMProperties := do
  let pubtime ← parseReq parse_wnm_datetime d.pubtime
  let data_id ← parseReq Except.ok d.data_id
  let metadata_id ← parseOpt Except.ok d.metadata_id
  let producer ← parseOpt Except.ok d.producer
  let dt ← parseOpt parse_wnm_datetime d.datetime
  let sdt ← parseOpt parse_wnm_datetime d.start_datetime
  let edt ← parseOpt parse_wnm_datetime d.end_datetime
  let cache ← parseOptNoNull Except.ok d.cache
  let integrity ← parseOpt parseIntegrity d.integrity
  let content ← parseOpt parseContent d.content
  let _ ← check_temporal_description dt sdt edt
  .ok ⟨pubtime, data_id, metadata_id, producer, dt, sdt, edt, cache, integrity, content⟩

/-- Construct a `WNM` from its document: per-field shape checks in
declaration order, then the model validators `check_conforms_to_or_version`
and `check_links_rel`. -/
def parseWNM (d : WNMDoc) : Except PyErr WNM := do
  let id ← parseReq Except.ok d.id
  let ty ← parseReq (parseEnum ["Feature"]) d.type
  let conformsTo ← parseOptNoNull Except.ok d.conformsTo
  let version ← parseOptNoNull (parseEnum ["v04"]) d.version
  let geometry ← parseReqOrNull Except.ok d.geometry
  let properties ← parseReq parseProps d.properties
  let links ← parseReq parseLinks d.links
  let _ ← check_conforms_to_or_version conformsTo version
  let _ ← check_links_rel (links.map WNMLink.rel)
  .ok ⟨id, ty, conformsTo, version, geometry, properties, links⟩

/-! ### Model serializers (`WNMModel.serialize`, definitions.py:85-88) -/

/-- Serialize a `WNMIntegrity` (all fields required, hence set). -/
def serializeIntegrity (c : WNMIntegrity) : IntegrityDoc :=
  ⟨.val c.method, .val c.value⟩

/-- Serialize a `WNMContent`. -/
def serializeContent (c : WNMContent) : ContentDoc :=
  ⟨.val c.encoding, .val c.value, .val c.size⟩

/-- Serialize a `WNMLink`. -/
def serializeLink (l : WNMLink) : LinkDoc :=
  ⟨.val l.href, .val l.rel, emitOpt id l.type, emitOpt id l.length,
   emitOpt id l.security⟩

/-- Serialize a `WNMProperties`. -/
def serializeProps (p : WNMProperties) : PropertiesDoc :=
  ⟨.val (serializeDt p.pubtime), .val p.data_id, emitOpt id p.metadata_id,
   emitOpt id p.producer, emitOpt serializeDt p.datetime,
   emitOpt serializeDt p.start_datetime, emitOpt serializeDt p.end_datetime,
   emitOptNoNull id p.cache, emitOpt serializeIntegrity p.integrity,
   emitOpt serializeContent p.content⟩

/-- Serialize a `WNM` to its document (the JSON tree `model_dump_json`
produces). -/
def serializeWNM (m : WNM) : WNMDoc :=
  ⟨.val m.id, .val m.type, emitOptNoNull id m.conformsTo,
   emitOptNoNull id m.version, emitReqOrNull id m.geometry,
   .val (serializeProps m.properties), .val (m.links.map serializeLink)⟩

/-! ## The event loop (`wis_event_loop`, main.py:93-136)

One iteration of the `async for msg in iter_mqtt(...)` body, up to the
point where the message is handed to the constraint check and action. -/

/-- An inbound payload, classified by how far the two decode stages get:
`badBytes` models bytes `msg.payload.decode("utf-8")` rejects, `badText`
text that `json.loads` rejects, `doc` a well-formed JSON document. -/
inductive RawPayload where
  | badBytes
  | badText (s : String)
  | doc (d : WNMDoc)
  deriving DecidableEq, Repr

/-- Outcome of one loop iteration: `skip` (logged, `continue` to the next
message), `fatal` (exception propagates out of the loop), or hand the
message to the later stages, typed or raw. -/
inductive StepOutcome where
  | skip
  | fatal (e : PyErr)
  | passTyped (m : WNM)
  | passRaw (d : WNMDoc)
  deriving DecidableEq, Repr

/-- One iteration of the body of `wis_event_loop` (main.py:114-136):

* `payload.decode("utf-8")` raising → log + `continue`;
* `json.loads(payload)` raising → log + `continue`;
* `if validate_wnm: data = WNM(**data)` — a `ValidationError` is logged
  and then re-raised (`raise`, main.py:130), and any other exception from
  validation propagates, so every validation failure terminates the loop;
* with `validate_wnm` false the raw document is passed on unchanged. -/
def wis_loop_step (validate_wnm : Bool) : RawPayload → StepOutcome
  | .badBytes => .skip
  | .badText _ => .skip
  | .doc d =>
    if validate_wnm then
      match parseWNM d with
      | .error e => .fatal e
      | .ok m => .passTyped m
    else .passRaw d

/-! ## The constraint engine (`parser.constraint_match`, parser.py:40-49)

Strings are worked with as `List Char` so the split at `'='` can be
reasoned about positionally.  A raw message is a JSON object: a list of
key/value pairs with Python-dict lookup. -/

/-- A JSON scalar as Python sees it after `json.loads`. -/
inductive PyVal where
  | str (s : List Char)
  | int (n : Int)
  | bool (b : Bool)
  | null
  deriving DecidableEq, Repr

/-- A raw (untyped) message: a Python dict from `json.loads`. -/
abbrev RawMsg := List (List Char × PyVal)

/-- Python `msg[key]` on a dict, as an optional lookup (the caller decides
what a missing key raises). -/
def lookupKey : RawMsg → List Char → Option PyVal
  | [], _ => none
  | (k, v) :: rest, key => if k = key then some v else lookupKey rest key

/-- Python `value == val` where `val` is a `str`: only equal strings
compare equal; an int, bool or `None` is never `==` a string. -/
def pyEqStr : PyVal → List Char → Bool
  | .str s, v => s = v
  | _, _ => false

/-- Python `str()` of a JSON scalar — the "string form" of a field value.
Used to compare the spec's string-form reading against the code's `==`:
`str(5)` is `"5"`, yet `5 == "5"` is false in Python. -/
def pyStr : PyVal → List Char
  | .str s => s
  | .int n => (toString n).toList
  | .bool b => if b then "True".toList else "False".toList
  | .null => "None".toList

/-- A message as handed to the compiled predicate (main.py wires the
constraint to receive `WNM | dict`): either the validated pydantic model
or the raw dict. -/
inductive Msg where
  | typed (m : WNM)
  | raw (d : RawMsg)

/-- Python `str.partition('=')`: split at the first `'='`, returning
(before, found-a-separator, after). -/
def partitionEq : List Char → List Char × Bool × List Char
  | [] => ([], false, [])
  | c :: cs =>
    if c = '=' then ([], true, cs)
    else
      let r := partitionEq cs
      (c :: r.1, r.2.1, r.2.2)

/-- The compile stage of `constraint_match` (parser.py:40-43):
`key, eq, val = match_expr.partition('=')`; an empty `eq` (no `'='` in the
expression) raises `ValueError`.  The returned pair is the data the `match`
closure closes over. -/
def constraint_match (mexpr : List Char) :
    Except PyErr (List Char × List Char) :=
  let r := partitionEq mexpr
  if r.2.1 then .ok (r.1, r.2.2) else .error .valueError

/-- The evaluation stage: the body of the inner `match` closure
(parser.py:45-48), `if msg[key] == val: return True; return False`.
On a typed message, `msg[key]` raises `TypeError`: pydantic `BaseModel`
defines no `__getitem__`, so a `WNM` is not subscriptable.  On a raw
message, `msg[key]` on a dict without the key raises `KeyError`. -/
def match_eval (kv : List Char × List Char) : Msg → Except PyErr Bool
  | .typed _ => .error .typeError
  | .raw msg =>
    match lookupKey msg kv.1 with
    | none => .error .keyError
    | some v => .ok (pyEqStr v kv.2)

/-! ## Helper lemmas -/

/-- Inversion of a monadic bind on `Except`. -/
theorem bind_ok {ε α β : Type} {x : Except ε α} {f : α → Except ε β} {b : β} :
    (x >>= f) = Except.ok b ↔ ∃ a, x = Except.ok a ∧ f a = Except.ok b := by
  cases x <;> simp [Bind.bind, Except.bind]

/-- `str.partition('=')` on a string without `'='` finds no separator and
returns the whole string as the head. -/
theorem partitionEq_of_not_mem {s : List Char} (h : '=' ∉ s) :
    partitionEq s = (s, false, []) := by
  induction s with
  | nil => rfl
  | cons c cs ih =>
    simp only [List.mem_cons, not_or] at h
    simp [partitionEq, h.1, ih h.2, Ne.symm h.1]

/-- `str.partition('=')` splits at the first `'='`. -/
theorem partitionEq_append {k v : List Char} (hk : '=' ∉ k) :
    partitionEq (k ++ '=' :: v) = (k, true, v) := by
  induction k with
  | nil => simp [partitionEq]
  | cons c cs ih =>
    simp only [List.mem_cons, not_or] at hk
    simp [partitionEq, Ne.symm hk.1, ih hk.2]

/-- With a negative attempt budget the retry loop never raises
`ConnectionError`, whatever the failure count (the Python `attempts`
variable only decrements, so it never reaches `0` from below). -/
theorem iter_mqtt_retry_neg_no_raise :
    ∀ (failures : Nat) (a : Int), a < 0 → ∀ w, iter_mqtt_retry a failures ≠ .connError w := by
  intro failures
  induction failures with
  | zero => intro a _ w h; exact RetryOutcome.noConfusion h
  | succ f ih =>
    intro a ha w h
    rw [iter_mqtt_retry] at h
    rw [if_neg (by omega)] at h
    rcases hrec : iter_mqtt_retry (a - 1) f with w' | w' <;> rw [hrec] at h
    · exact RetryOutcome.noConfusion h
    · exact ih (a - 1) (by omega) w' hrec

/-! ### Round-trip lemmas: validating the serialized form of a validated
message gives the message back, field kind by field kind. -/

/-- A successful required-field parse came from a present, non-null key. -/
theorem parseReq_ok_inv {f : α → Except PyErr β} {j : JField α} {b : β}
    (h : parseReq f j = .ok b) : ∃ a, j = .val a ∧ f a = .ok b := by
  cases j <;> simp_all [parseReq]

/-- Passthrough fields (`str`, `int`, `bool`, dicts): re-validating an
already-validated value is the identity. -/
theorem ok_id_rt {α : Type} : ∀ (a b : α),
    (Except.ok a : Except PyErr α) = .ok b →
    (Except.ok (id b) : Except PyErr α) = .ok b :=
  fun _ _ _ => rfl

/-- A validated enum/literal value re-validates to itself. -/
theorem parseEnum_rt {A : List String} {s b : String}
    (h : parseEnum A s = .ok b) : parseEnum A b = .ok b := by
  simp only [parseEnum] at h ⊢
  split at h
  · injection h with h
    subst h
    simp_all
  · exact absurd h (by simp)

/-- A validated link URL re-validates to itself. -/
theorem parseUrl_rt {u b : UrlSurface} (h : parseUrl u = .ok b) :
    parseUrl b = .ok b := by
  simp only [parseUrl] at h ⊢
  split at h
  · injection h with h
    subst h
    simp_all
  · exact absurd h (by simp)

/-- A validated WNM datetime carries the UTC zone, and its serialized ISO
form re-parses to the same datetime. -/
theorem parse_wnm_datetime_rt {t : TsSurface} {d : PyDatetime}
    (h : parse_wnm_datetime t = .ok d) :
    parse_wnm_datetime (serializeDt d) = .ok d := by
  rcases t with _ | x
  · exact absurd h (by simp [parse_wnm_datetime])
  · rcases hx : x.tzinfo with _ | tz <;>
      simp only [parse_wnm_datetime, hx] at h
    · exact absurd h (by simp)
    · split at h
      · rename_i htz
        injection h with h
        subst h
        simp [serializeDt, parse_wnm_datetime, hx, htz]
      · exact absurd h (by simp)

/-- Round-trip for a required non-nullable field. -/
theorem parseReq_rt {f : α → Except PyErr β} {e : β → α} {j : JField α} {b : β}
    (hf : ∀ a b, f a = .ok b → f (e b) = .ok b)
    (h : parseReq f j = .ok b) : parseReq f (.val (e b)) = .ok b := by
  obtain ⟨a, -, hfa⟩ := parseReq_ok_inv h
  simpa [parseReq] using hf a b hfa

/-- Round-trip for an optional nullable field: the `model_fields_set`
serializer omits the defaulted state, emits `null` for an explicit null,
and re-validation restores the same state. -/
theorem parseOpt_rt {f : α → Except PyErr β} {e : β → α}
    (hf : ∀ a b, f a = .ok b → f (e b) = .ok b) {j : JField α} {p : Presence β}
    (h : parseOpt f j = .ok p) : parseOpt f (emitOpt e p) = .ok p := by
  cases j with
  | absent =>
    injection h with h
    subst h
    rfl
  | null =>
    injection h with h
    subst h
    rfl
  | val a =>
    rcases hfa : f a with e | b <;> simp only [parseOpt, hfa] at h
    · exact absurd h (by simp)
    · injection h with h
      subst h
      simp [parseOpt, emitOpt, hf a b hfa]

/-- Round-trip for an optional non-nullable field. -/
theorem parseOptNoNull_rt {f : α → Except PyErr β} {e : β → α}
    (hf : ∀ a b, f a = .ok b → f (e b) = .ok b) {j : JField α} {p : Option β}
    (h : parseOptNoNull f j = .ok p) :
    parseOptNoNull f (emitOptNoNull e p) = .ok p := by
  cases j with
  | absent =>
    injection h with h
    subst h
    rfl
  | null => exact absurd h (by simp [parseOptNoNull])
  | val a =>
    rcases hfa : f a with e | b <;> simp only [parseOptNoNull, hfa] at h
    · exact absurd h (by simp)
    · injection h with h
      subst h
      simp [parseOptNoNull, emitOptNoNull, hf a b hfa]

/-- Round-trip for a required nullable field. -/
theorem parseReqOrNull_rt {f : α → Except PyErr β} {e : β → α}
    (hf : ∀ a b, f a = .ok b → f (e b) = .ok b) {j : JField α} {p : Option β}
    (h : parseReqOrNull f j = .ok p) :
    parseReqOrNull f (emitReqOrNull e p) = .ok p := by
  cases j with
  | absent => exact absurd h (by simp [parseReqOrNull])
  | null =>
    injection h with h
    subst h
    rfl
  | val a =>
    rcases hfa : f a with e | b <;> simp only [parseReqOrNull, hfa] at h
    · exact absurd h (by simp)
    · injection h with h
      subst h
      simp [parseReqOrNull, emitReqOrNull, hf a b hfa]

/-- A validated `WNMIntegrity` re-validates from its serialized form. -/
theorem parseIntegrity_rt {d : IntegrityDoc} {c : WNMIntegrity}
    (h : parseIntegrity d = .ok c) :
    parseIntegrity (serializeIntegrity c) = .ok c := by
  simp only [parseIntegrity, bind_ok, Except.ok.injEq] at h
  obtain ⟨method, hm, value, hv, hc⟩ := h
  subst hc
  obtain ⟨a, -, hfa⟩ := parseReq_ok_inv hm
  have hm' := parseEnum_rt hfa
  simp [parseIntegrity, serializeIntegrity, parseReq, hm', Bind.bind, Except.bind]

/-- A validated `WNMContent` re-validates from its serialized form. -/
theorem parseContent_rt {d : ContentDoc} {c : WNMContent}
    (h : parseContent d = .ok c) :
    parseContent (serializeContent c) = .ok c := by
  simp only [parseContent, bind_ok, Except.ok.injEq] at h
  obtain ⟨enc, he, v, hv, size, hs, hc⟩ := h
  subst hc
  obtain ⟨a, -, hfa⟩ := parseReq_ok_inv he
  have he' := parseEnum_rt hfa
  obtain ⟨a2, -, hfa2⟩ := parseReq_ok_inv hs
  have hsz : content_size_ok size = true := by
    by_cases hk : content_size_ok a2
    · simp only [if_pos hk] at hfa2
      injection hfa2 with hfa2
      subst hfa2
      exact hk
    · simp [if_neg hk] at hfa2
  simp [parseContent, serializeContent, parseReq, he', hsz, Bind.bind, Except.bind]

/-- A validated `WNMLink` re-validates from its serialized form. -/
theorem parseLink_rt {d : LinkDoc} {l : WNMLink}
    (h : parseLink d = .ok l) : parseLink (serializeLink l) = .ok l := by
  simp only [parseLink, bind_ok, Except.ok.injEq] at h
  obtain ⟨href, hh, rel, hr, ty, ht, len, hl, sec, hs, hl'⟩ := h
  subst hl'
  obtain ⟨a, -, hfa⟩ := parseReq_ok_inv hh
  have hh' := parseUrl_rt hfa
  have ht' := parseOpt_rt ok_id_rt ht
  have hl2 := parseOpt_rt ok_id_rt hl
  have hs' := parseOpt_rt ok_id_rt hs
  simp [parseLink, serializeLink, parseReq, hh', ht', hl2, hs',
    Bind.bind, Except.bind]

/-- Round-trip for element-wise list validation. -/
theorem mapE_rt {f : α → Except PyErr β} {e : β → α}
    (hf : ∀ a b, f a = .ok b → f (e b) = .ok b) :
    ∀ {xs : List α} {ys : List β}, mapE f xs = .ok ys →
      mapE f (ys.map e) = .ok ys := by
  intro xs
  induction xs with
  | nil =>
    intro ys h
    injection h with h
    subst h
    rfl
  | cons x xs ih =>
    intro ys h
    rcases hx : f x with e | y <;> simp only [mapE, hx] at h
    · exact absurd h (by simp)
    · rcases hrest : mapE f xs with e | ys' <;> rw [hrest] at h
      · exact absurd h (by simp)
      · injection h with h
        subst h
        simp [mapE, hf x y hx, ih hrest]

/-- A validated `links` list re-validates from its serialized form. -/
theorem parseLinks_rt {docs : List LinkDoc} {links : List WNMLink}
    (h : parseLinks docs = .ok links) :
    parseLinks (links.map serializeLink) = .ok links := by
  simp only [parseLinks, bind_ok] at h
  obtain ⟨ls, hmap, hif⟩ := h
  split at hif
  · exact absurd hif (by simp)
  · injection hif with hif
    subst hif
    have hmap' := mapE_rt (fun a b hb => parseLink_rt hb) hmap
    simp_all [parseLinks, Bind.bind, Except.bind]

/-- A validated `WNMProperties` re-validates from its serialized form. -/
theorem parseProps_rt {d : PropertiesDoc} {P : WNMProperties}
    (h : parseProps d = .ok P) : parseProps (serializeProps P) = .ok P := by
  simp only [parseProps, bind_ok, Except.ok.injEq] at h
  obtain ⟨pubtime, h1, data_id, h2, metadata_id, h3, producer, h4, dt, h5,
    sdt, h6, edt, h7, cache, h8, integrity, h9, content, h10, u, h11, hP⟩ := h
  subst hP
  obtain ⟨t1, -, hq1⟩ := parseReq_ok_inv h1
  have hp1 := parse_wnm_datetime_rt hq1
  have hp3 := parseOpt_rt ok_id_rt h3
  have hp4 := parseOpt_rt ok_id_rt h4
  have hp5 := parseOpt_rt (fun _ _ hb => parse_wnm_datetime_rt hb) h5
  have hp6 := parseOpt_rt (fun _ _ hb => parse_wnm_datetime_rt hb) h6
  have hp7 := parseOpt_rt (fun _ _ hb => parse_wnm_datetime_rt hb) h7
  have hp8 := parseOptNoNull_rt ok_id_rt h8
  have hp9 := parseOpt_rt (fun _ _ hb => parseIntegrity_rt hb) h9
  have hp10 := parseOpt_rt (fun _ _ hb => parseContent_rt hb) h10
  have h11' : check_temporal_description dt sdt edt = .ok () := by
    cases u
    exact h11
  simp [parseProps, serializeProps, parseReq, hp1, hp3, hp4, hp5, hp6, hp7,
    hp8, hp9, hp10, h11', Bind.bind, Except.bind]

/-! ## Claim theorems -/

/-- C1: validation of the temporal description succeeds exactly when either
`datetime` alone is present or both `start_datetime` and `end_datetime` are
present; a field explicitly set to null counts as present (distinct from
never sent). -/
theorem check_temporal_description_ok_iff :
    (∀ dt sdt edt : Presence PyDatetime,
      check_temporal_description dt sdt edt = .ok () ↔
        ((dt.isPresent ∧ ¬sdt.isPresent ∧ ¬edt.isPresent) ∨
         (¬dt.isPresent ∧ sdt.isPresent ∧ edt.isPresent))) ∧
    (Presence.null : Presence PyDatetime).isPresent = true := by
  refine ⟨?_, rfl⟩
  intro dt sdt edt
  cases dt <;> cases sdt <;> cases edt <;>
    simp [check_temporal_description, Presence.isPresent]

/-- C4: exactly one of `conformsTo` or `version` must be present — both
present and neither present fail, exactly one passes this check. -/
theorem check_conforms_to_or_version_ok_iff
    (c : Option (List String)) (v : Option String) :
    check_conforms_to_or_version c v = .ok () ↔
      ((c.isSome ∧ ¬v.isSome) ∨ (¬c.isSome ∧ v.isSome)) := by
  cases c <;> cases v <;> simp [check_conforms_to_or_version]

/-- C3 (evaluation at the failing inputs): a well-formed timestamp with no
zone designator does not parse as UTC — the assignment
`dt.tzinfo = timezone.utc` raises `AttributeError` because `tzinfo` is a
read-only attribute; a non-UTC zone also ends in `AttributeError` (the
error message calls the nonexistent `dt.toisoformat()`); an explicit UTC
zone parses unchanged; an unparseable string raises `ValueError`. -/
theorem parse_wnm_datetime_eval :
    parse_wnm_datetime (some ⟨20240101, none⟩) = .error .attributeError ∧
    parse_wnm_datetime (some ⟨20240101, some 0⟩) = .ok ⟨20240101, some 0⟩ ∧
    parse_wnm_datetime (some ⟨20240101, some 330⟩) = .error .attributeError ∧
    parse_wnm_datetime none = .error .valueError := by
  refine ⟨rfl, ?_, ?_, rfl⟩ <;> simp [parse_wnm_datetime, utcOffset]

/-- C6: with `reconnect_attempts = 0` a single failure raises a connection
error with no backoff wait; with `reconnect_attempts = 2` a
fail-fail-succeed connection delivers after exactly two backoff waits and
raises no error; with any negative `reconnect_attempts` no number of
consecutive failures ever raises a connection error. -/
theorem iter_mqtt_retry_spec :
    iter_mqtt_retry 0 1 = .connError 0 ∧
    iter_mqtt_retry 2 2 = .delivered 2 ∧
    (∀ a : Int, a < 0 → ∀ (failures w : Nat),
      iter_mqtt_retry a failures ≠ .connError w) := by
  refine ⟨rfl, rfl, ?_⟩
  intro a ha failures w
  exact iter_mqtt_retry_neg_no_raise failures a ha w

/-- C6 witness: an unlimited (negative) budget never raises, at a concrete
budget `-1`, five failures, any claimed wait count `3`. -/
theorem iter_mqtt_retry_spec_witness :
    iter_mqtt_retry (-1) 5 ≠ .connError 3 :=
  iter_mqtt_retry_spec.2.2 (-1) (by decide) 5 3

/-- C7 (evaluation at the failing input): for a session configured with
topic list `["origin/a/wis2/fr-meteofrance/#"]`, the connection manager
issues exactly one subscribe request, but it is for the hardcoded filter
`"cache/a/wis2/#"` — no configured topic filter is subscribed to, contrary
to the claim that the request covers every configured filter. -/
theorem session_subscribe_ignores_topics :
    let info : MqttConnectionInfo :=
      { endpoint := "globalbroker.meteo.fr",
        topics := ["origin/a/wis2/fr-meteofrance/#"],
        user := "everyone", password := "everyone", transport := "tcp",
        reconnect_delay := 3500, reconnect_attempts := -1 }
    session_subscribe_calls info = [("cache/a/wis2/#", 1)] ∧
    ∀ t ∈ info.topics, (t, 1) ∉ session_subscribe_calls info := by
  refine ⟨rfl, ?_⟩
  intro t ht
  simp only [MqttConnectionInfo.topics, List.mem_singleton] at ht
  subst ht
  simp [session_subscribe_calls]

/-- C10: the `match` constraint compiler rejects an argument without `'='`
at compile time and otherwise splits at the first `'='`, so the value may
itself contain `'='`. -/
theorem constraint_match_compile_spec :
    (∀ s : List Char, '=' ∉ s → constraint_match s = .error .valueError) ∧
    (∀ k v : List Char, '=' ∉ k →
      constraint_match (k ++ '=' :: v) = .ok (k, v)) := by
  constructor
  · intro s hs
    simp [constraint_match, partitionEq_of_not_mem hs]
  · intro k v hk
    simp [constraint_match, partitionEq_append hk]

/-- C10 witness: compiling `match k=a=b` produces the predicate data
comparing field `k` to the string `a=b`. -/
theorem constraint_match_compile_spec_witness :
    constraint_match "k=a=b".toList = .ok ("k".toList, "a=b".toList) := by
  have h : "k=a=b".toList = "k".toList ++ '=' :: "a=b".toList := by decide
  rw [h]
  exact constraint_match_compile_spec.2 "k".toList "a=b".toList (by decide)

/-- C9: a content block whose declared `size` exceeds 4096 bytes fails
validation, and the size bound is inclusive: with `size` at most 4096 the
size check passes, and a block that is otherwise well-formed validates. -/
theorem content_size_check (d : ContentDoc) (n : Int) (hsize : d.size = .val n) :
    (wnm_content_max_bytes < n → parseContent d = .error .valueError) ∧
    (n ≤ wnm_content_max_bytes →
      content_size_ok n = true ∧
      ∀ enc v, d.encoding = .val enc → wnm_content_encodings.contains enc = true →
        d.value = .val v → parseContent d = .ok ⟨enc, v, n⟩) := by
  constructor
  · intro hgt
    have hko : content_size_ok n = false := by
      simp only [content_size_ok, decide_eq_false_iff_not]
      omega
    rcases he : d.encoding with _ | _ | enc <;>
      rcases hv : d.value with _ | _ | v <;>
        simp_all [parseContent, parseReq, parseEnum, Bind.bind, Except.bind] <;>
        split <;> simp_all [Bind.bind, Except.bind] <;>
        split_ifs at * <;> simp_all
  · intro hle
    have hok : content_size_ok n = true := by
      simp only [content_size_ok, decide_eq_true_eq]
      omega
    refine ⟨hok, ?_⟩
    intro enc v henc hcont hv
    have hmem : enc ∈ wnm_content_encodings := by simpa using hcont
    simp [parseContent, parseReq, parseEnum, henc, hmem, hv, hsize, hok,
      Bind.bind, Except.bind]

/-- C9 witness: a well-formed content block with `size = 4096` (the bound
is inclusive) validates. -/
theorem content_size_check_witness :
    parseContent ⟨.val "utf-8", .val "x", .val 4096⟩ =
      .ok ⟨"utf-8", "x", 4096⟩ :=
  ((content_size_check ⟨.val "utf-8", .val "x", .val 4096⟩ 4096 rfl).2
    (by decide)).2 "utf-8" "x" rfl (by decide) rfl

/-- C5: malformed bytes and malformed JSON are logged and skipped whatever
the strict flag; under strict mode a well-formed document failing schema
validation terminates the loop; under lenient mode the document is passed
through untyped. -/
theorem wis_loop_step_policy :
    (∀ strict : Bool, wis_loop_step strict .badBytes = .skip) ∧
    (∀ (strict : Bool) (s : String), wis_loop_step strict (.badText s) = .skip) ∧
    (∀ (d : WNMDoc) (e : PyErr), parseWNM d = .error e →
      wis_loop_step true (.doc d) = .fatal e) ∧
    (∀ d : WNMDoc, wis_loop_step false (.doc d) = .passRaw d) := by
    refine ⟨fun _ => rfl, fun _ _ => rfl, ?_, fun _ => rfl⟩
    intro d e h
    simp [wis_loop_step, h]

/-- C5 witness: the empty document (no keys at all) fails validation and is
fatal under strict mode. -/
theorem wis_loop_step_policy_witness :
    wis_loop_step true
      (.doc ⟨.absent, .absent, .absent, .absent, .absent, .absent, .absent⟩) =
      .fatal .valueError :=
  wis_loop_step_policy.2.2.1 _ _ rfl

/-- C8: serialization followed by re-validation is the identity on valid
messages — a message that validated from some document, serialized by the
`model_fields_set` serializer and validated again, is equal in every field
(values and presence states alike) to the original. -/
theorem serialize_then_validate_id (d : WNMDoc) (m : WNM)
    (h : parseWNM d = .ok m) : parseWNM (serializeWNM m) = .ok m := by
  simp only [parseWNM, bind_ok, Except.ok.injEq] at h
  obtain ⟨id0, h1, ty, h2, conformsTo, h3, version, h4, geometry, h5,
    properties, h6, links, h7, u1, h8, u2, h9, hm⟩ := h
  subst hm
  obtain ⟨a2, -, hq2⟩ := parseReq_ok_inv h2
  have hty := parseEnum_rt hq2
  have hc := parseOptNoNull_rt ok_id_rt h3
  have hv : parseOptNoNull (parseEnum ["v04"]) (emitOptNoNull id version) =
      Except.ok version :=
    parseOptNoNull_rt (fun _ _ hb => parseEnum_rt hb) h4
  have hg := parseReqOrNull_rt ok_id_rt h5
  obtain ⟨pd, -, hq6⟩ := parseReq_ok_inv h6
  have hp := parseProps_rt hq6
  obtain ⟨ld, -, hq7⟩ := parseReq_ok_inv h7
  have hl := parseLinks_rt hq7
  have h8' : check_conforms_to_or_version conformsTo version = .ok () := by
    cases u1
    exact h8
  have h9' : check_links_rel (links.map WNMLink.rel) = .ok () := by
    cases u2
    exact h9
  simp [parseWNM, serializeWNM, parseReq, hty, hc, hv, hg, hp, hl, h8', h9',
    Bind.bind, Except.bind]

/-- A concrete valid message document, for the round-trip witness. -/
def sampleDoc : WNMDoc where
  id := .val "85bc72e6-49f8-4f1a-ae24-c7fe92b0e933"
  type := .val "Feature"
  conformsTo := .val ["http://wis.wmo.int/spec/wnm/1/conf/core"]
  version := .absent
  geometry := .null
  properties := .val
    { pubtime := .val (some ⟨1, some 0⟩)
      data_id := .val "wis2/fr/data/x"
      metadata_id := .absent
      producer := .absent
      datetime := .val (some ⟨2, some 0⟩)
      start_datetime := .absent
      end_datetime := .absent
      cache := .absent
      integrity := .absent
      content := .absent }
  links := .val
    [{ href := .val ⟨"https", "example.com/data"⟩, rel := .val "canonical",
       type := .absent, length := .absent, security := .absent }]

/-- The message `sampleDoc` validates to. -/
def sampleWNM : WNM where
  id := "85bc72e6-49f8-4f1a-ae24-c7fe92b0e933"
  type := "Feature"
  conformsTo := some ["http://wis.wmo.int/spec/wnm/1/conf/core"]
  version := none
  geometry := none
  properties :=
    { pubtime := ⟨1, some 0⟩
      data_id := "wis2/fr/data/x"
      metadata_id := .notset
      producer := .notset
      datetime := .value ⟨2, some 0⟩
      start_datetime := .notset
      end_datetime := .notset
      cache := none
      integrity := .notset
      content := .notset }
  links := [{ href := ⟨"https", "example.com/data"⟩, rel := "canonical",
              type := .notset, length := .notset, security := .notset }]

/-- C8 witness: the round trip at the concrete valid message. -/
theorem serialize_then_validate_id_witness :
    parseWNM (serializeWNM sampleWNM) = .ok sampleWNM :=
  serialize_then_validate_id sampleDoc sampleWNM (by rfl)

/-- C2 counterexample: three concrete evaluations of the compiled `match`
predicate contradict the claim as stated.  (a) A raw message lacking the
key raises `KeyError` instead of evaluating to false.  (b) A raw message
whose field `size` holds the number `5` evaluates `match size=5` to false,
although the field's string form is exactly `"5"` — the code compares with
`==` against the string, not by string form.  (c) A typed message raises
`TypeError` (pydantic models are not subscriptable), even though the
looked-up field is present and its string form equals the argument, where
the claim requires true. -/
theorem match_eval_claim_counterexample :
    (match_eval ("dataId".toList, "abc123".toList) (.raw []) =
        .error .keyError ∧
      match_eval ("dataId".toList, "abc123".toList) (.raw []) ≠ .ok false) ∧
    (match_eval ("size".toList, "5".toList)
        (.raw [("size".toList, .int 5)]) = .ok false ∧
      pyStr (.int 5) = "5".toList) ∧
    (match_eval ("id".toList, sampleWNM.id.toList) (.typed sampleWNM) =
        .error .typeError ∧
      pyStr (.str sampleWNM.id.toList) = sampleWNM.id.toList) := by
  refine ⟨⟨rfl, fun h => Except.noConfusion h⟩, ⟨?_, by decide⟩, rfl, rfl⟩
  rfl

/-- C2 as amended: on a raw message the compiled `match key=value`
predicate yields true when the field `key` is present with value
`==`-equal to the string `value` (hence exactly the string `value`; a
non-string field never matches, even when its string form equals `value`),
yields false when the field is present with any other value, and raises a
`KeyError` when the message has no field named `key`; on a typed message
the predicate always raises a `TypeError`. -/
theorem match_eval_spec (key val : List Char) :
    (∀ msg : RawMsg,
      (lookupKey msg key = some (.str val) →
        match_eval (key, val) (.raw msg) = .ok true) ∧
      (∀ pv, lookupKey msg key = some pv → pv ≠ .str val →
        match_eval (key, val) (.raw msg) = .ok false) ∧
      (lookupKey msg key = none →
        match_eval (key, val) (.raw msg) = .error .keyError)) ∧
    (∀ m : WNM, match_eval (key, val) (.typed m) = .error .typeError) := by
  refine ⟨?_, fun _ => rfl⟩
  intro msg
  refine ⟨?_, ?_, ?_⟩
  · intro h
    simp [match_eval, h, pyEqStr]
  · intro pv h hne
    have : pyEqStr pv val = false := by
      cases pv <;> simp_all [pyEqStr]
    simp [match_eval, h, this]
  · intro h
    simp [match_eval, h]

/-- C2 witness: `match dataId=abc123` against a raw message with
`dataId = "abc123"` yields true. -/
theorem match_eval_spec_witness :
    match_eval ("dataId".toList, "abc123".toList)
      (.raw [("dataId".toList, .str "abc123".toList)]) = .ok true :=
  ((match_eval_spec "dataId".toList "abc123".toList).1 _).1 (by decide)

end Wisfind
